import Mathlib

/-!
Shallow embedding of the rikka-engine GPU resource layer (rikka_gpu/src/buffer.rs)
and the application frame loop (rikka/src/app.rs, rikka/src/main.rs), together with
theorems settling the specification claims about them.

Machine integers (`u32`, `u64`, `vk::BufferUsageFlags`) are modelled as `Nat`; the
only casts in the relevant code are the lossless widenings `desc.size as u64` and
`size as u32` applied to in-range values, so no wraparound modelling is needed.
Host memory touched by `copy_data_to_buffer` is modelled as a total map from
addresses to bytes.
-/

namespace Rikka

/-- Vulkan buffer usage flags (`vk::BufferUsageFlags`), a 32-bit bitmask modelled
as `Nat`.  Bit values are the Vulkan constants used by the repository. -/
abbrev BufferUsageFlags := Nat

/-- VK_BUFFER_USAGE_TRANSFER_SRC_BIT (0x00000001). -/
def BufferUsageFlags.TRANSFER_SRC : BufferUsageFlags := 0x1

/-- VK_BUFFER_USAGE_TRANSFER_DST_BIT (0x00000002). -/
def BufferUsageFlags.TRANSFER_DST : BufferUsageFlags := 0x2

/-- VK_BUFFER_USAGE_UNIFORM_BUFFER_BIT (0x00000010). -/
def BufferUsageFlags.UNIFORM_BUFFER : BufferUsageFlags := 0x10

/-- VK_BUFFER_USAGE_VERTEX_BUFFER_BIT (0x00000080). -/
def BufferUsageFlags.VERTEX_BUFFER : BufferUsageFlags := 0x80

/-- vk::BufferUsageFlags::empty(). -/
def BufferUsageFlags.empty : BufferUsageFlags := 0

/-- Modelled from the spec: `ResourceUsageType` lives in rikka_gpu/src/types.rs,
which is not among the provided sources; only the `Immutable` variant is
referenced by the sources (the default in `BufferDesc::new`).  Extra variants
stand in for the unknown remainder of the enum. -/
inductive ResourceUsageType where
  | Immutable
  | Dynamic
  | Stream
deriving DecidableEq, Repr

/-- The `BufferLocation` enum of rikka_gpu/src/buffer.rs (lines 18-22): the
spec-level memory-location policy set {GpuOnly, CpuToGpu, PersistentMapped}. -/
inductive BufferLocation where
  | GpuOnly
  | CpuToGpu
  | PersistentMapped
deriving DecidableEq, Repr

/-- `gpu_allocator::MemoryLocation`, the location actually passed to the
allocator by `Buffer::create`. -/
inductive MemoryLocation where
  | Unknown
  | GpuOnly
  | CpuToGpu
  | GpuToCpu
deriving DecidableEq, Repr

/-- The correspondence between the repository's `BufferLocation` policy set and
the allocator's `MemoryLocation` values named by `Buffer::create`. -/
def BufferLocation.toMemoryLocation : BufferLocation → MemoryLocation
  | .GpuOnly => .GpuOnly
  | .CpuToGpu => .CpuToGpu
  | .PersistentMapped => .CpuToGpu

/-- `BufferDesc` (rikka_gpu/src/buffer.rs lines 24-29). -/
structure BufferDesc where
  usage_flags : BufferUsageFlags
  resource_usage : ResourceUsageType
  size : Nat
  device_only : Bool
deriving DecidableEq, Repr

/-- `BufferDesc::new` (buffer.rs lines 32-39). -/
def BufferDesc.new : BufferDesc where
  usage_flags := BufferUsageFlags.empty
  resource_usage := ResourceUsageType.Immutable
  size := 0
  device_only := true

/-- `BufferDesc::set_usage_flags` (buffer.rs lines 41-44). -/
def BufferDesc.set_usage_flags (d : BufferDesc) (usage_flags : BufferUsageFlags) :
    BufferDesc :=
  { d with usage_flags := usage_flags }

/-- `BufferDesc::set_resource_usage` (buffer.rs lines 46-49). -/
def BufferDesc.set_resource_usage (d : BufferDesc) (resource_usage : ResourceUsageType) :
    BufferDesc :=
  { d with resource_usage := resource_usage }

/-- `BufferDesc::set_size` (buffer.rs lines 51-54). -/
def BufferDesc.set_size (d : BufferDesc) (size : Nat) : BufferDesc :=
  { d with size := size }

/-- `BufferDesc::set_device_only` (buffer.rs lines 56-59). -/
def BufferDesc.set_device_only (d : BufferDesc) (device_only : Bool) : BufferDesc :=
  { d with device_only := device_only }

/-- The error kinds relevant to the embedded calls.  `OutOfDeviceMemory` is the
out-of-memory failure surfaced by `gpu_allocator`'s `allocate` (wrapped into
`anyhow::Error` by the `?` operator in `Buffer::create`). -/
inductive GpuError where
  | OutOfDeviceMemory
  | Other
deriving DecidableEq, Repr

/-- `vk::MemoryRequirements` as reported by
`get_buffer_memory_requirements` for zero-initialized handle. -/
structure MemoryRequirements where
  size : Nat
  alignment : Nat
deriving DecidableEq, Repr

/-- `gpu_allocator::vulkan::Allocation`: the sub-allocation handed back by the
allocator.  Modelled from the spec: the allocator is the external
Memory Allocator Adapter of the spec's section 4.1; CpuToGpu/PersistentMapped
allocations expose a stable host pointer (`mappedPtr = some addr`), GpuOnly
allocations are never host-mapped (`mappedPtr = none`). -/
structure Allocation where
  id : Nat
  size : Nat
  offset : Nat
  memory : Nat
  mappedPtr : Option Nat
deriving DecidableEq, Repr

/-- Modelled from the spec: observable accounting state of the external
`gpu_allocator::vulkan::Allocator` (Memory Allocator Adapter, spec section 4.1):
`allocate` grows `totalAllocated` by the allocation's size and records it live,
`free` returns the allocation and shrinks `totalAllocated` by its size. -/
structure Allocator where
  nextId : Nat
  totalAllocated : Nat
  live : List Allocation
deriving DecidableEq, Repr

/-- Environment for a single `Buffer::create` call: choices made by the device
and allocator that the repository's code does not control — whether the
allocation attempt runs out of memory, the host address the allocator maps
host-visible memory at, and the memory requirements the device reports for the
new buffer handle. -/
structure AllocEnv where
  allocFails : Bool
  hostAddr : Nat
  requirements : MemoryRequirements
deriving DecidableEq, Repr

/-- Modelled from the spec: `Allocator::allocate(&AllocationCreateDesc {..})`
per the section 4.1 contract `allocate(size, alignment, location) -> Allocation`;
failure surfaces as an explicit out-of-memory error. -/
def Allocator.allocate (env : AllocEnv) (requirements : MemoryRequirements)
    (location : MemoryLocation) (a : Allocator) :
    Except GpuError Allocation × Allocator :=
  if env.allocFails then
    (Except.error GpuError.OutOfDeviceMemory, a)
  else
    let alloc : Allocation :=
      { id := a.nextId
        size := requirements.size
        offset := 0
        memory := a.nextId
        mappedPtr := if location = MemoryLocation.GpuOnly then none else some env.hostAddr }
    (Except.ok alloc,
      { a with
        nextId := a.nextId + 1
        totalAllocated := a.totalAllocated + requirements.size
        live := alloc :: a.live })

/-- Modelled from the spec: `Allocator::free(allocation)` per the section 4.1
contract `free(Allocation)`: the allocation's bytes are returned to the
allocator. -/
def Allocator.free (alloc : Allocation) (a : Allocator) : Allocator :=
  { a with
    totalAllocated := a.totalAllocated - alloc.size
    live := a.live.filter (fun x => x.id ≠ alloc.id) }

/-- Observable state of the Vulkan device for the buffer claims: the fresh-handle
counter, the set of live `vk::Buffer` handles, and which handle is bound to
which allocation. -/
structure DeviceState where
  nextHandle : Nat
  liveBuffers : List Nat
  bound : List (Nat × Nat)
deriving DecidableEq, Repr

/-- `vk::BufferCreateInfo` as built by `Buffer::create` (buffer.rs lines 84-90):
size from `desc.size as u64`, usage from `desc.usage_flags |
TRANSFER_SRC | TRANSFER_DST`. -/
structure BufferCreateInfo where
  size : Nat
  usage : BufferUsageFlags
deriving DecidableEq, Repr

/-- The `vk::BufferCreateInfo` builder chain of buffer.rs lines 84-90. -/
def createInfoOf (desc : BufferDesc) : BufferCreateInfo where
  size := desc.size
  usage :=
    desc.usage_flags |||
      BufferUsageFlags.TRANSFER_SRC |||
      BufferUsageFlags.TRANSFER_DST

/-- `Device::create_buffer`: returns a fresh live handle. -/
def DeviceState.create_buffer (d : DeviceState) : Nat × DeviceState :=
  (d.nextHandle,
    { d with nextHandle := d.nextHandle + 1, liveBuffers := d.nextHandle :: d.liveBuffers })

/-- `Device::bind_buffer_memory(handle, memory, offset)`: records the binding. -/
def DeviceState.bind_buffer_memory (d : DeviceState) (handle : Nat) (alloc : Allocation) :
    DeviceState :=
  { d with bound := (handle, alloc.id) :: d.bound }

/-- `Device::destroy_buffer(handle)`: the handle stops being live and loses its
binding. -/
def DeviceState.destroy_buffer (d : DeviceState) (handle : Nat) : DeviceState :=
  { d with
    liveBuffers := d.liveBuffers.filter (fun h => h ≠ handle)
    bound := d.bound.filter (fun p => p.1 ≠ handle) }

/-- Combined device + allocator state threaded through `Buffer::create` and
`Buffer::destroy`. -/
structure GpuState where
  device : DeviceState
  allocator : Allocator
deriving DecidableEq, Repr

/-- Events emitted by the device/allocator calls inside `Buffer::create`, in
program order. -/
inductive GpuEvent where
  | CreateBufferHandle (size : Nat) (usage : BufferUsageFlags)
  | Allocate (size : Nat) (location : MemoryLocation)
  | BindMemory (handle : Nat) (memory : Nat) (offset : Nat)
deriving DecidableEq, Repr

/-- The `Buffer` struct of buffer.rs lines 62-76 (the `device`/`allocator`
guards are ambient state here). -/
structure Buffer where
  raw : Nat
  allocation : Allocation
  desc : BufferDesc
deriving DecidableEq, Repr

/-- `Buffer::create` (buffer.rs lines 79-121): builds the create-info, creates
the device handle, queries requirements, picks `GpuOnly` iff
`desc.device_only` else `CpuToGpu`, allocates, binds, and returns the buffer.
On an allocation failure the `?` operator returns the error immediately: no
call un-creates the handle made at line 92. -/
def Buffer.create (env : AllocEnv) (desc : BufferDesc) (s : GpuState) :
    Except GpuError Buffer × GpuState × List GpuEvent :=
  let info := createInfoOf desc
  let raw := (s.device.create_buffer).1
  let dev1 := (s.device.create_buffer).2
  let requirements := env.requirements
  let location :=
    if desc.device_only then MemoryLocation.GpuOnly else MemoryLocation.CpuToGpu
  match Allocator.allocate env requirements location s.allocator with
  | (Except.error e, a1) =>
      (Except.error e, { device := dev1, allocator := a1 },
        [GpuEvent.CreateBufferHandle info.size info.usage,
         GpuEvent.Allocate requirements.size location])
  | (Except.ok alloc, a1) =>
      let dev2 := dev1.bind_buffer_memory raw alloc
      (Except.ok { raw := raw, allocation := alloc, desc := desc },
        { device := dev2, allocator := a1 },
        [GpuEvent.CreateBufferHandle info.size info.usage,
         GpuEvent.Allocate requirements.size location,
         GpuEvent.BindMemory raw alloc.memory alloc.offset])

/-- `Buffer::destroy` (buffer.rs lines 123-126): destroys the device handle and
frees the allocation. -/
def Buffer.destroy (b : Buffer) (s : GpuState) : GpuState :=
  { device := s.device.destroy_buffer b.raw
    allocator := Allocator.free b.allocation s.allocator }

/-- Host memory visible through mapped pointers: a total map from byte address
to byte value. -/
def Mem : Type := Nat → Nat

/-- Write one byte. -/
def memWrite (m : Mem) (a : Nat) (b : Nat) : Mem :=
  fun x => if x = a then b else m x

/-- Write a list of bytes at consecutive addresses starting at `a`. -/
def writeBytes (m : Mem) (a : Nat) : List Nat → Mem
  | [] => m
  | b :: bs => writeBytes (memWrite m a b) (a + 1) bs

/-- Read `n` bytes starting at address `a`. -/
def readBytes (m : Mem) (a : Nat) : Nat → List Nat
  | 0 => []
  | n + 1 => m a :: readBytes m (a + 1) n

/-- `ash::util`'s padding computation: bytes needed after `offset` to reach the
next multiple of `alignment`. -/
def compute_padding (offset alignment : Nat) : Nat :=
  (alignment - offset % alignment) % alignment

/-- The element-by-element copy performed by `ash::util::Align::copy_from_slice`:
element `i`, encoded as `elemSize` bytes, is written at
`ptr + i * stride` where `stride` is the padded element size. -/
def alignCopyFromSlice (m : Mem) (ptr stride : Nat) : List (List Nat) → Mem
  | [] => m
  | e :: rest => alignCopyFromSlice (writeBytes m ptr e) (ptr + stride) stride rest

/-- `Buffer::copy_data_to_buffer` (buffer.rs lines 128-138), for an element type
of byte size `elemSize` and alignment `elemAlign` and a slice whose elements
are encoded as byte lists.  `allocation.mapped_ptr().unwrap()` panics when the
allocation carries no mapped host pointer — modelled as `none`; otherwise an
`ash::util::Align` with alignment `align_of::<T>()` copies the slice into the
mapped region and the function returns `Ok(())`. -/
def Buffer.copy_data_to_buffer (b : Buffer) (elemSize elemAlign : Nat)
    (data : List (List Nat)) (m : Mem) : Option (Except GpuError Unit × Mem) :=
  match b.allocation.mappedPtr with
  | none => none
  | some ptr =>
      let stride := elemSize + compute_padding elemSize elemAlign
      some (Except.ok (), alignCopyFromSlice m ptr stride data)

/-! ## Application layer (rikka/src/app.rs, rikka/src/main.rs) -/

/-- size_of::<nalgebra::Matrix4<f32>>(): sixteen 4-byte floats. -/
def sizeOfMatrix4f32 : Nat := 16 * 4

/-- size_of::<nalgebra::Vector4<f32>>(): four 4-byte floats. -/
def sizeOfVector4f32 : Nat := 4 * 4

/-- size_of::<UniformData>() for the `repr(C)` struct of app.rs lines 34-43:
`model`, `view`, `projection : Matrix4<f32>` then `eye`, `light : Vector4<f32>`,
laid out sequentially with no padding (every field has alignment 4 and a size
divisible by 4). -/
def sizeOfUniformData : Nat := 3 * sizeOfMatrix4f32 + 2 * sizeOfVector4f32

/-- The uniform-buffer descriptor built in `RikkaApp::new` (app.rs lines 59-64):
`BufferDesc::new().set_size(size_of::<UniformData>()).set_usage_flags(UNIFORM_BUFFER).set_device_only(false)`. -/
def uniformBufferDesc : BufferDesc :=
  ((BufferDesc.new.set_size sizeOfUniformData).set_usage_flags
      BufferUsageFlags.UNIFORM_BUFFER).set_device_only false

/-- The `ResourceState` values named by app.rs. -/
inductive ResourceState where
  | UNDEFINED
  | RENDER_TARGET
  | PRESENT
  | DEPTH_WRITE
deriving DecidableEq, Repr

/-- Modelled from the spec: the `MeshDraw` records of the asset loader
(rikka/src/renderer/gltf.rs is not among the provided sources); only the fields
`RikkaApp::render` branches on are relevant — whether the draw's textures are
incomplete (it is skipped), whether it has a tangent buffer (else the zero
buffer is bound at slot 3), and its index count. -/
structure MeshDraw where
  textures_incomplete : Bool
  has_tangent : Bool
  count : Nat
deriving DecidableEq, Repr

/-- The calls `RikkaApp::render` and the event loop make against the renderer,
command buffer and uniform state, in program order. -/
inductive AppEvent where
  | UpdateView
  | UpdateProjection
  | BeginFrame
  | CopyUniformData
  | CmdBegin
  | PipelineBarrier (src dst : ResourceState)
  | BeginRendering
  | BindGraphicsPipeline
  | BindVertexBuffer (slot : Nat)
  | BindIndexBuffer
  | BindDescriptorSet (setIndex : Nat)
  | DrawIndexed (count : Nat)
  | EndRendering
  | CmdEnd
  | QueueCommandBuffer
  | EndFrame
deriving DecidableEq, Repr

/-- The recording emitted for one entry of `gltf_scene.mesh_draws` by the loop
in `RikkaApp::render` (app.rs lines 207-257): skipped entirely when
`textures_incomplete`; otherwise vertex buffers at slots 0-3 (slot 3 from the
tangent buffer or the zero buffer), the index buffer, the per-mesh and bindless
descriptor sets, and the indexed draw. -/
def meshDrawEvents (md : MeshDraw) : List AppEvent :=
  if md.textures_incomplete then []
  else
    [AppEvent.BindVertexBuffer 0,
     AppEvent.BindVertexBuffer 1,
     AppEvent.BindVertexBuffer 2,
     AppEvent.BindVertexBuffer 3,
     AppEvent.BindIndexBuffer,
     AppEvent.BindDescriptorSet 0,
     AppEvent.BindDescriptorSet 1,
     AppEvent.DrawIndexed md.count]

/-- The full call sequence of one successful `RikkaApp::render` (app.rs lines
162-275), as a function of the scene's mesh draws. -/
def renderEvents (meshDraws : List MeshDraw) : List AppEvent :=
  [AppEvent.BeginFrame,
   AppEvent.CopyUniformData,
   AppEvent.CmdBegin,
   AppEvent.PipelineBarrier ResourceState.UNDEFINED ResourceState.RENDER_TARGET,
   AppEvent.BeginRendering,
   AppEvent.BindGraphicsPipeline]
  ++ (meshDraws.map meshDrawEvents).flatten
  ++ [AppEvent.EndRendering,
      AppEvent.PipelineBarrier ResourceState.RENDER_TARGET ResourceState.PRESENT,
      AppEvent.CmdEnd,
      AppEvent.QueueCommandBuffer,
      AppEvent.EndFrame]

/-- One iteration of the event loop's `MainEventsCleared` arm (main.rs lines
108-117): the camera refresh `rikka_app.update_view(..)` followed by
`rikka_app.render()`. -/
def frameEvents (meshDraws : List MeshDraw) : List AppEvent :=
  AppEvent.UpdateView :: renderEvents meshDraws

/-- Events that only record draw state into the command buffer (the body of the
mesh-draw loop). -/
def isDrawRecordingEvent : AppEvent → Bool
  | AppEvent.BindVertexBuffer _ => true
  | AppEvent.BindIndexBuffer => true
  | AppEvent.BindDescriptorSet _ => true
  | AppEvent.DrawIndexed _ => true
  | _ => false

/-- Recognizer for the UNDEFINED to RENDER_TARGET swapchain barrier. -/
def isBarrierURT : AppEvent → Bool
  | AppEvent.PipelineBarrier ResourceState.UNDEFINED ResourceState.RENDER_TARGET => true
  | _ => false

/-- Recognizer for the RENDER_TARGET to PRESENT swapchain barrier. -/
def isBarrierRTP : AppEvent → Bool
  | AppEvent.PipelineBarrier ResourceState.RENDER_TARGET ResourceState.PRESENT => true
  | _ => false

/-- Recognizer for `begin_frame`. -/
def isBeginFrame : AppEvent → Bool
  | AppEvent.BeginFrame => true
  | _ => false

/-- Recognizer for `CommandBuffer::begin`. -/
def isCmdBegin : AppEvent → Bool
  | AppEvent.CmdBegin => true
  | _ => false

/-- Recognizer for `CommandBuffer::end`. -/
def isCmdEnd : AppEvent → Bool
  | AppEvent.CmdEnd => true
  | _ => false

/-- Recognizer for `queue_command_buffer`. -/
def isQueueCommandBuffer : AppEvent → Bool
  | AppEvent.QueueCommandBuffer => true
  | _ => false

/-- Recognizer for `end_frame`. -/
def isEndFrame : AppEvent → Bool
  | AppEvent.EndFrame => true
  | _ => false

/-- Recognizer for `update_view`. -/
def isUpdateView : AppEvent → Bool
  | AppEvent.UpdateView => true
  | _ => false

/-- The startup call sequence of `main` (main.rs lines 57-58) followed by the
event-loop frames: `update_view` and `update_projection` are both called before
the loop runs its first frame. -/
def mainEvents (frames : List (List MeshDraw)) : List AppEvent :=
  AppEvent.UpdateView :: AppEvent.UpdateProjection ::
    (frames.map frameEvents).flatten

/-! ## Concrete states used by witnesses -/

instance {ε α : Type} [DecidableEq ε] [DecidableEq α] : DecidableEq (Except ε α) :=
  fun x y =>
  match x, y with
  | Except.error e, Except.error f =>
      if h : e = f then Decidable.isTrue (by rw [h])
      else Decidable.isFalse (by intro hc; injection hc with h2; exact h h2)
  | Except.error _, Except.ok _ =>
      Decidable.isFalse (by intro hc; exact Except.noConfusion hc)
  | Except.ok _, Except.error _ =>
      Decidable.isFalse (by intro hc; exact Except.noConfusion hc)
  | Except.ok a, Except.ok b =>
      if h : a = b then Decidable.isTrue (by rw [h])
      else Decidable.isFalse (by intro hc; injection hc with h2; exact h h2)

/-- A fresh device + allocator state. -/
def initState : GpuState where
  device := { nextHandle := 1, liveBuffers := [], bound := [] }
  allocator := { nextId := 1, totalAllocated := 0, live := [] }

/-- An environment in which the allocation attempt fails with out-of-memory. -/
def oomEnv : AllocEnv where
  allocFails := true
  hostAddr := 0
  requirements := { size := 256, alignment := 16 }

/-- An environment in which the allocation attempt succeeds. -/
def okEnv : AllocEnv where
  allocFails := false
  hostAddr := 4096
  requirements := { size := 256, alignment := 16 }

/-- All-zero host memory. -/
def memZero : Mem := fun _ => 0

/-- The allocation produced by `Buffer.create okEnv (BufferDesc.new.set_size 64)
initState` (device-only, hence unmapped). -/
def allocW : Allocation where
  id := 1
  size := 256
  offset := 0
  memory := 1
  mappedPtr := none

/-- The buffer produced by `Buffer.create okEnv (BufferDesc.new.set_size 64)
initState`. -/
def bufW : Buffer where
  raw := 1
  allocation := allocW
  desc := BufferDesc.new.set_size 64

/-- The state after `Buffer.create okEnv (BufferDesc.new.set_size 64) initState`. -/
def stateW : GpuState where
  device := { nextHandle := 2, liveBuffers := [1], bound := [(1, 1)] }
  allocator := { nextId := 2, totalAllocated := 256, live := [allocW] }

/-- The event trace of `Buffer.create okEnv (BufferDesc.new.set_size 64)
initState`. -/
def traceW : List GpuEvent :=
  [GpuEvent.CreateBufferHandle 64 3,
   GpuEvent.Allocate 256 MemoryLocation.GpuOnly,
   GpuEvent.BindMemory 1 1 0]

/-- The allocation produced by `Buffer.create okEnv uniformBufferDesc
initState` (host-visible, hence mapped at `okEnv.hostAddr`). -/
def allocUniformW : Allocation where
  id := 1
  size := 256
  offset := 0
  memory := 1
  mappedPtr := some 4096

/-- The buffer produced by `Buffer.create okEnv uniformBufferDesc initState`. -/
def bufUniformW : Buffer where
  raw := 1
  allocation := allocUniformW
  desc := uniformBufferDesc

/-- The state after `Buffer.create okEnv uniformBufferDesc initState`. -/
def stateUniformW : GpuState where
  device := { nextHandle := 2, liveBuffers := [1], bound := [(1, 1)] }
  allocator := { nextId := 2, totalAllocated := 256, live := [allocUniformW] }

/-- The event trace of `Buffer.create okEnv uniformBufferDesc initState`. -/
def traceUniformW : List GpuEvent :=
  [GpuEvent.CreateBufferHandle 224 19,
   GpuEvent.Allocate 256 MemoryLocation.CpuToGpu,
   GpuEvent.BindMemory 1 1 0]

/-! ## Helper lemmas -/

lemma create_eq_ok (env : AllocEnv) (desc : BufferDesc) (s : GpuState)
    (hf : env.allocFails = false) :
    Buffer.create env desc s =
      (Except.ok
        { raw := s.device.nextHandle
          allocation :=
            { id := s.allocator.nextId
              size := env.requirements.size
              offset := 0
              memory := s.allocator.nextId
              mappedPtr := if desc.device_only then none else some env.hostAddr }
          desc := desc },
       { device :=
           { nextHandle := s.device.nextHandle + 1
             liveBuffers := s.device.nextHandle :: s.device.liveBuffers
             bound := (s.device.nextHandle, s.allocator.nextId) :: s.device.bound }
         allocator :=
           { nextId := s.allocator.nextId + 1
             totalAllocated := s.allocator.totalAllocated + env.requirements.size
             live :=
               { id := s.allocator.nextId
                 size := env.requirements.size
                 offset := 0
                 memory := s.allocator.nextId
                 mappedPtr := if desc.device_only then none
                   else some env.hostAddr } :: s.allocator.live } },
       [GpuEvent.CreateBufferHandle desc.size (createInfoOf desc).usage,
        GpuEvent.Allocate env.requirements.size
          (if desc.device_only then MemoryLocation.GpuOnly else MemoryLocation.CpuToGpu),
        GpuEvent.BindMemory s.device.nextHandle s.allocator.nextId 0]) := by
  by_cases hd : desc.device_only = true <;>
    simp [Buffer.create, Allocator.allocate, hf, hd, DeviceState.create_buffer,
      DeviceState.bind_buffer_memory, createInfoOf]

lemma create_ok_allocFails (env : AllocEnv) (desc : BufferDesc) (s : GpuState)
    (b : Buffer) (s1 : GpuState) (tr : List GpuEvent)
    (h : Buffer.create env desc s = (Except.ok b, s1, tr)) :
    env.allocFails = false := by
  cases hx : env.allocFails
  · rfl
  · exfalso
    simp [Buffer.create, Allocator.allocate, hx] at h

lemma writeBytes_lt (bs : List Nat) : ∀ (m : Mem) (a x : Nat), x < a →
    writeBytes m a bs x = m x := by
  induction bs with
  | nil => intro m a x _; rfl
  | cons b rest ih =>
      intro m a x hx
      show writeBytes (memWrite m a b) (a + 1) rest x = m x
      rw [ih (memWrite m a b) (a + 1) x (Nat.lt_succ_of_lt hx)]
      unfold memWrite
      rw [if_neg (Nat.ne_of_lt hx)]

lemma readBytes_writeBytes (bs : List Nat) : ∀ (m : Mem) (a : Nat),
    readBytes (writeBytes m a bs) a bs.length = bs := by
  induction bs with
  | nil => intro m a; rfl
  | cons b rest ih =>
      intro m a
      show readBytes (writeBytes (memWrite m a b) (a + 1) rest) a (rest.length + 1) =
        b :: rest
      simp only [readBytes]
      congr 1
      · rw [writeBytes_lt rest (memWrite m a b) (a + 1) a (Nat.lt_succ_self a)]
        unfold memWrite
        rw [if_pos rfl]
      · exact ih (memWrite m a b) (a + 1)

lemma writeBytes_append (bs cs : List Nat) : ∀ (m : Mem) (a : Nat),
    writeBytes m a (bs ++ cs) = writeBytes (writeBytes m a bs) (a + bs.length) cs := by
  induction bs with
  | nil => intro m a; simp [writeBytes]
  | cons b rest ih =>
      intro m a
      show writeBytes (memWrite m a b) (a + 1) (rest ++ cs) = _
      rw [ih (memWrite m a b) (a + 1)]
      have hlen : a + 1 + rest.length = a + (rest.length + 1) := by omega
      rw [hlen]
      rfl

lemma alignCopyFromSlice_flatten (data : List (List Nat)) :
    ∀ (m : Mem) (p stride : Nat), (∀ e ∈ data, e.length = stride) →
    alignCopyFromSlice m p stride data = writeBytes m p data.flatten := by
  induction data with
  | nil => intro m p stride _; rfl
  | cons e rest ih =>
      intro m p stride h
      show alignCopyFromSlice (writeBytes m p e) (p + stride) stride rest = _
      rw [ih (writeBytes m p e) (p + stride) stride
        (fun x hx => h x (List.mem_cons_of_mem _ hx))]
      have he : e.length = stride := h e (List.mem_cons_self _ _)
      rw [show (e :: rest).flatten = e ++ rest.flatten from rfl, writeBytes_append,
        he]

lemma compute_padding_eq_zero (sz a : Nat) (hd : a ∣ sz) :
    compute_padding sz a = 0 := by
  obtain ⟨k, rfl⟩ := hd
  unfold compute_padding
  rw [Nat.mul_mod_right]
  simp

lemma meshDrawEvents_draw_only (md : MeshDraw) :
    ∀ e ∈ meshDrawEvents md, isDrawRecordingEvent e = true := by
  intro e he
  unfold meshDrawEvents at he
  split at he
  · exact absurd he (List.not_mem_nil e)
  · simp at he
    rcases he with rfl | rfl | rfl | rfl | rfl | rfl | rfl | rfl <;> rfl

lemma mem_meshDraw_flatten_draw (mds : List MeshDraw) (e : AppEvent)
    (he : e ∈ (mds.map meshDrawEvents).flatten) :
    isDrawRecordingEvent e = true := by
  rw [List.mem_flatten] at he
  obtain ⟨l, hl, hel⟩ := he
  rw [List.mem_map] at hl
  obtain ⟨md, _, rfl⟩ := hl
  exact meshDrawEvents_draw_only md e hel

lemma draw_event_recognizers (e : AppEvent) (h : isDrawRecordingEvent e = true) :
    isBarrierURT e = false ∧ isBarrierRTP e = false ∧ isBeginFrame e = false ∧
    isCmdBegin e = false ∧ isCmdEnd e = false ∧
    isQueueCommandBuffer e = false ∧ isEndFrame e = false ∧
    isUpdateView e = false := by
  cases e <;>
    simp_all [isDrawRecordingEvent, isBarrierURT, isBarrierRTP, isBeginFrame,
      isCmdBegin, isCmdEnd, isQueueCommandBuffer, isEndFrame, isUpdateView]

lemma countP_flatten_draw_zero (mds : List MeshDraw) (p : AppEvent → Bool)
    (hp : ∀ e, isDrawRecordingEvent e = true → p e = false) :
    ((mds.map meshDrawEvents).flatten).countP p = 0 := by
  rw [List.countP_eq_zero]
  intro a ha
  have hfalse := hp a (mem_meshDraw_flatten_draw mds a ha)
  simp [hfalse]

/-! ## Claim theorems -/

/-- C8: `BufferDesc` is a value-type descriptor built via chained configuration:
`BufferDesc::new` yields empty usage flags, `Immutable` resource usage, size 0
and `device_only = true`, and each setter sets exactly its named field, leaving
the other three fields unchanged. -/
theorem bufferDesc_builder_spec :
    (BufferDesc.new.usage_flags = BufferUsageFlags.empty ∧
      BufferDesc.new.resource_usage = ResourceUsageType.Immutable ∧
      BufferDesc.new.size = 0 ∧
      BufferDesc.new.device_only = true) ∧
    (∀ (d : BufferDesc) (f : BufferUsageFlags),
      (d.set_usage_flags f).usage_flags = f ∧
      (d.set_usage_flags f).resource_usage = d.resource_usage ∧
      (d.set_usage_flags f).size = d.size ∧
      (d.set_usage_flags f).device_only = d.device_only) ∧
    (∀ (d : BufferDesc) (r : ResourceUsageType),
      (d.set_resource_usage r).resource_usage = r ∧
      (d.set_resource_usage r).usage_flags = d.usage_flags ∧
      (d.set_resource_usage r).size = d.size ∧
      (d.set_resource_usage r).device_only = d.device_only) ∧
    (∀ (d : BufferDesc) (n : Nat),
      (d.set_size n).size = n ∧
      (d.set_size n).usage_flags = d.usage_flags ∧
      (d.set_size n).resource_usage = d.resource_usage ∧
      (d.set_size n).device_only = d.device_only) ∧
    (∀ (d : BufferDesc) (b : Bool),
      (d.set_device_only b).device_only = b ∧
      (d.set_device_only b).usage_flags = d.usage_flags ∧
      (d.set_device_only b).resource_usage = d.resource_usage ∧
      (d.set_device_only b).size = d.size) := by
  refine ⟨⟨rfl, rfl, rfl, rfl⟩, ?_, ?_, ?_, ?_⟩ <;>
    intro d v <;> exact ⟨rfl, rfl, rfl, rfl⟩

/-- C9: the device buffer handle created by `Buffer::create` has usage flags
`desc.usage_flags | TRANSFER_SRC | TRANSFER_DST`; in particular the
TRANSFER_SRC bit (bit 0) and TRANSFER_DST bit (bit 1) are set for every
descriptor. -/
theorem create_usage_includes_transfer (desc : BufferDesc) :
    (createInfoOf desc).usage =
      desc.usage_flags ||| BufferUsageFlags.TRANSFER_SRC |||
        BufferUsageFlags.TRANSFER_DST ∧
    Nat.testBit (createInfoOf desc).usage 0 = true ∧
    Nat.testBit (createInfoOf desc).usage 1 = true := by
  have h1 : Nat.testBit BufferUsageFlags.TRANSFER_SRC 0 = true := by decide
  have h2 : Nat.testBit BufferUsageFlags.TRANSFER_DST 1 = true := by decide
  refine ⟨rfl, ?_, ?_⟩
  · show Nat.testBit
        (desc.usage_flags ||| BufferUsageFlags.TRANSFER_SRC |||
          BufferUsageFlags.TRANSFER_DST) 0 = true
    rw [Nat.testBit_lor, Nat.testBit_lor, h1]
    simp
  · show Nat.testBit
        (desc.usage_flags ||| BufferUsageFlags.TRANSFER_SRC |||
          BufferUsageFlags.TRANSFER_DST) 1 = true
    rw [Nat.testBit_lor, h2]
    simp

/-- C2 counterexample: the `repr(C)` uniform-data struct of app.rs (three 4x4
f32 matrices and two 4-component f32 vectors) occupies 224 bytes, not the 208
bytes the claim states. -/
theorem uniformData_not_208_bytes :
    sizeOfUniformData = 224 ∧ sizeOfUniformData ≠ 208 := by
  decide

/-- C2 amended: the per-frame uniform data occupies 224 bytes
(3 * 64 + 2 * 16), and the uniform buffer is created with exactly that size
(`size_of::<UniformData>()`). -/
theorem uniformBuffer_sized_to_uniformData :
    sizeOfUniformData = 3 * sizeOfMatrix4f32 + 2 * sizeOfVector4f32 ∧
    sizeOfUniformData = 224 ∧
    uniformBufferDesc.size = sizeOfUniformData := by
  decide

/-- C1: when the allocator's `allocate` fails inside `Buffer::create`, the call
surfaces the explicit out-of-memory error to the caller, but creation is not
atomic: the device buffer handle created before the allocation attempt (handle
1 here, made by `create_buffer` at buffer.rs line 92) is still live in the
resulting device state, because the early return of the `?` operator never
destroys it. -/
theorem create_alloc_failure_leaks_handle :
    (Buffer.create oomEnv (BufferDesc.new.set_size 64) initState).1 =
      Except.error GpuError.OutOfDeviceMemory ∧
    1 ∈ (Buffer.create oomEnv (BufferDesc.new.set_size 64)
        initState).2.1.device.liveBuffers := by
  decide

/-- C5: for every descriptor with size > 0, `Buffer::create` followed
immediately by `Buffer::destroy` leaves the allocator's total allocated bytes
unchanged — `destroy` returns to the allocator exactly the allocation `create`
obtained. -/
theorem create_destroy_roundtrip (env : AllocEnv) (desc : BufferDesc)
    (s : GpuState) (b : Buffer) (s1 : GpuState) (tr : List GpuEvent)
    (hsz : 0 < desc.size)
    (h : Buffer.create env desc s = (Except.ok b, s1, tr)) :
    (Buffer.destroy b s1).allocator.totalAllocated =
      s.allocator.totalAllocated := by
  have hf := create_ok_allocFails env desc s b s1 tr h
  rw [create_eq_ok env desc s hf] at h
  injection h with hA hBC
  injection hA with hb
  injection hBC with hs1 htr
  subst hb
  subst hs1
  simp [Buffer.destroy, Allocator.free]

/-- C5 witness: a concrete create/destroy round trip on a fresh state leaves
the allocator's total allocated bytes at its initial value. -/
theorem create_destroy_roundtrip_witness :
    0 < (BufferDesc.new.set_size 64).size ∧
    (Buffer.destroy bufW stateW).allocator.totalAllocated =
      initState.allocator.totalAllocated :=
  ⟨by decide,
    create_destroy_roundtrip okEnv (BufferDesc.new.set_size 64) initState bufW
      stateW traceW (by decide) (by decide)⟩

/-- C4: a successful `Buffer::create(desc)` creates a device buffer handle
sized per `desc.size`, requests memory of the location matching the
descriptor's policy — a location in the set named by `BufferLocation`
({GpuOnly, CpuToGpu, PersistentMapped}), with `GpuOnly` exactly when
`desc.device_only` — and binds the memory to the handle before returning
(the bind event closes the trace and the binding is in the returned state). -/
theorem buffer_create_requests_and_binds (env : AllocEnv) (desc : BufferDesc)
    (s : GpuState) (b : Buffer) (s1 : GpuState) (tr : List GpuEvent)
    (h : Buffer.create env desc s = (Except.ok b, s1, tr)) :
    tr = [GpuEvent.CreateBufferHandle desc.size (createInfoOf desc).usage,
          GpuEvent.Allocate env.requirements.size
            (if desc.device_only then MemoryLocation.GpuOnly
             else MemoryLocation.CpuToGpu),
          GpuEvent.BindMemory b.raw b.allocation.memory b.allocation.offset] ∧
    ((if desc.device_only then MemoryLocation.GpuOnly
      else MemoryLocation.CpuToGpu) = MemoryLocation.GpuOnly ↔
        desc.device_only = true) ∧
    (∃ bl : BufferLocation,
      bl.toMemoryLocation =
        (if desc.device_only then MemoryLocation.GpuOnly
         else MemoryLocation.CpuToGpu)) ∧
    (b.raw, b.allocation.id) ∈ s1.device.bound := by
  have hf := create_ok_allocFails env desc s b s1 tr h
  rw [create_eq_ok env desc s hf] at h
  injection h with hA hBC
  injection hA with hb
  injection hBC with hs1 htr
  subst hb
  subst hs1
  subst htr
  refine ⟨rfl, ?_, ?_, List.mem_cons_self _ _⟩
  · by_cases hd : desc.device_only = true <;> simp [hd]
  · by_cases hd : desc.device_only = true
    · exact ⟨BufferLocation.GpuOnly, by simp [hd, BufferLocation.toMemoryLocation]⟩
    · exact ⟨BufferLocation.CpuToGpu, by simp [hd, BufferLocation.toMemoryLocation]⟩

/-- C4 witness: the concrete creation of a 64-byte device-only buffer requests
GpuOnly memory, records the handle-creation, allocation and bind events in
order, and leaves the handle bound in the final state. -/
theorem buffer_create_requests_and_binds_witness :
    traceW =
      [GpuEvent.CreateBufferHandle (BufferDesc.new.set_size 64).size
        (createInfoOf (BufferDesc.new.set_size 64)).usage,
       GpuEvent.Allocate okEnv.requirements.size
         (if (BufferDesc.new.set_size 64).device_only then MemoryLocation.GpuOnly
          else MemoryLocation.CpuToGpu),
       GpuEvent.BindMemory bufW.raw bufW.allocation.memory
         bufW.allocation.offset] ∧
    ((if (BufferDesc.new.set_size 64).device_only then MemoryLocation.GpuOnly
      else MemoryLocation.CpuToGpu) = MemoryLocation.GpuOnly ↔
        (BufferDesc.new.set_size 64).device_only = true) ∧
    (∃ bl : BufferLocation,
      bl.toMemoryLocation =
        (if (BufferDesc.new.set_size 64).device_only then MemoryLocation.GpuOnly
         else MemoryLocation.CpuToGpu)) ∧
    (bufW.raw, bufW.allocation.id) ∈ stateW.device.bound :=
  buffer_create_requests_and_binds okEnv (BufferDesc.new.set_size 64) initState
    bufW stateW traceW (by decide)

/-- C3: `copy_data_to_buffer` on a host-visible buffer (one created with
`device_only = false`, whose CpuToGpu allocation exposes a stable host
pointer): for every slice whose byte size fits the buffer, the call returns
`Ok`, the write is exactly the slice's bytes laid out contiguously from the
mapped pointer (the aligned element-wise copy coincides with the byte copy
because the element alignment divides the element size), and reading the
mapped region back yields the data; the no-mapped-pointer panic branch is
unreachable because the mapped pointer exists. -/
theorem copy_host_visible_spec (env : AllocEnv) (desc : BufferDesc)
    (s : GpuState) (b : Buffer) (s1 : GpuState) (tr : List GpuEvent)
    (elemSize elemAlign : Nat) (data : List (List Nat)) (m : Mem)
    (hdev : desc.device_only = false)
    (h : Buffer.create env desc s = (Except.ok b, s1, tr))
    (hal : 0 < elemAlign)
    (hdvd : elemAlign ∣ elemSize)
    (hlen : ∀ e ∈ data, e.length = elemSize)
    (hsz : elemSize * data.length ≤ b.desc.size) :
    b.allocation.mappedPtr = some env.hostAddr ∧
    b.copy_data_to_buffer elemSize elemAlign data m =
      some (Except.ok (), writeBytes m env.hostAddr data.flatten) ∧
    readBytes (writeBytes m env.hostAddr data.flatten) env.hostAddr
      data.flatten.length = data.flatten := by
  have hf := create_ok_allocFails env desc s b s1 tr h
  rw [create_eq_ok env desc s hf] at h
  injection h with hA hBC
  injection hA with hb
  subst hb
  have hmapped :
      (({ raw := s.device.nextHandle
          allocation :=
            { id := s.allocator.nextId
              size := env.requirements.size
              offset := 0
              memory := s.allocator.nextId
              mappedPtr := if desc.device_only then none else some env.hostAddr }
          desc := desc } : Buffer)).allocation.mappedPtr = some env.hostAddr := by
    simp [hdev]
  refine ⟨hmapped, ?_, readBytes_writeBytes data.flatten m env.hostAddr⟩
  unfold Buffer.copy_data_to_buffer
  rw [hmapped]
  rw [compute_padding_eq_zero elemSize elemAlign hdvd]
  rw [Nat.add_zero]
  show some (Except.ok (), alignCopyFromSlice m env.hostAddr elemSize data) =
    some (Except.ok (), writeBytes m env.hostAddr data.flatten)
  rw [alignCopyFromSlice_flatten data m env.hostAddr elemSize hlen]

/-- C3 witness: copying two 2-byte elements into the concrete host-visible
uniform buffer writes bytes 1,2,3,4 contiguously at the mapped address 4096
and returns Ok. -/
theorem copy_host_visible_spec_witness :
    bufUniformW.allocation.mappedPtr = some okEnv.hostAddr ∧
    bufUniformW.copy_data_to_buffer 2 2 [[1, 2], [3, 4]] memZero =
      some (Except.ok (),
        writeBytes memZero okEnv.hostAddr ([[1, 2], [3, 4]] : List (List Nat)).flatten) ∧
    readBytes (writeBytes memZero okEnv.hostAddr
        ([[1, 2], [3, 4]] : List (List Nat)).flatten) okEnv.hostAddr
      ([[1, 2], [3, 4]] : List (List Nat)).flatten.length =
      ([[1, 2], [3, 4]] : List (List Nat)).flatten :=
  copy_host_visible_spec okEnv uniformBufferDesc initState bufUniformW
    stateUniformW traceUniformW 2 2 [[1, 2], [3, 4]] memZero rfl (by decide)
    (by decide) (by decide) (by decide) (by decide)

/-- C10: `copy_data_to_buffer` never returns an error value: whenever it
returns at all, the result is `Ok(())`; on a buffer whose allocation has no
mapped host pointer it fails by panic (the `unwrap` of `mapped_ptr()`),
modelled as returning no value at all, rather than by returning `Err`. -/
theorem copy_data_result_ok (b : Buffer) (elemSize elemAlign : Nat)
    (data : List (List Nat)) (m : Mem) :
    (∀ (r : Except GpuError Unit) (m2 : Mem),
      b.copy_data_to_buffer elemSize elemAlign data m = some (r, m2) →
        r = Except.ok ()) ∧
    (b.allocation.mappedPtr = none →
      b.copy_data_to_buffer elemSize elemAlign data m = none) := by
  constructor
  · intro r m2 h
    cases hm : b.allocation.mappedPtr with
    | none =>
        unfold Buffer.copy_data_to_buffer at h
        rw [hm] at h
        exact Option.noConfusion h
    | some p =>
        unfold Buffer.copy_data_to_buffer at h
        rw [hm] at h
        injection h with h2
        injection h2 with hr _
        exact hr.symm
  · intro hm
    unfold Buffer.copy_data_to_buffer
    rw [hm]

/-- C10 witness: on the concrete device-only buffer (no mapped pointer) the
call panics — returns no value — rather than an `Err`. -/
theorem copy_data_result_ok_witness :
    bufW.allocation.mappedPtr = none ∧
    bufW.copy_data_to_buffer 1 1 [[5]] memZero = none :=
  ⟨rfl, (copy_data_result_ok bufW 1 1 [[5]] memZero).2 rfl⟩

/-- C6: in every frame recorded by `RikkaApp::render` — for every possible list
of mesh draws, i.e. unconditionally, with no check of any prior state — the
swapchain image receives exactly one UNDEFINED to RENDER_TARGET pipeline
barrier, placed before `begin_rendering`, and exactly one RENDER_TARGET to
PRESENT pipeline barrier, placed after `end_rendering` (the transitions are
always balanced). -/
theorem render_swapchain_barriers (mds : List MeshDraw) :
    (∃ mid : List AppEvent,
      renderEvents mds =
        [AppEvent.BeginFrame, AppEvent.CopyUniformData, AppEvent.CmdBegin,
         AppEvent.PipelineBarrier ResourceState.UNDEFINED
           ResourceState.RENDER_TARGET]
        ++ (AppEvent.BeginRendering :: AppEvent.BindGraphicsPipeline :: mid)
        ++ [AppEvent.EndRendering,
            AppEvent.PipelineBarrier ResourceState.RENDER_TARGET
              ResourceState.PRESENT,
            AppEvent.CmdEnd, AppEvent.QueueCommandBuffer, AppEvent.EndFrame] ∧
      ∀ e ∈ mid, isDrawRecordingEvent e = true) ∧
    (renderEvents mds).countP isBarrierURT = 1 ∧
    (renderEvents mds).countP isBarrierRTP = 1 := by
  refine ⟨⟨(mds.map meshDrawEvents).flatten, ?_,
    fun e he => mem_meshDraw_flatten_draw mds e he⟩, ?_, ?_⟩
  · simp [renderEvents]
  · have hz := countP_flatten_draw_zero mds isBarrierURT
      (fun e h => (draw_event_recognizers e h).1)
    unfold renderEvents
    rw [List.countP_append, List.countP_append, hz]
    decide
  · have hz := countP_flatten_draw_zero mds isBarrierRTP
      (fun e h => (draw_event_recognizers e h).2.1)
    unfold renderEvents
    rw [List.countP_append, List.countP_append, hz]
    decide

/-- C7: every displayed frame's draw loop performs `begin_frame`, then records
draws into a command buffer bracketed by `begin` and `end`, then
`queue_command_buffer`, then `end_frame`, each exactly once and in that order
(the decomposition fixes the order, the counts the multiplicity; everything
between the brackets is draw recording); `update_view` runs before
`begin_frame` of the frame it feeds, and at startup both `update_view` and
`update_projection` run before the first frame. -/
theorem frame_loop_protocol :
    (∀ mds : List MeshDraw,
      ∃ recording : List AppEvent,
        frameEvents mds =
          [AppEvent.UpdateView, AppEvent.BeginFrame, AppEvent.CopyUniformData,
           AppEvent.CmdBegin,
           AppEvent.PipelineBarrier ResourceState.UNDEFINED
             ResourceState.RENDER_TARGET,
           AppEvent.BeginRendering, AppEvent.BindGraphicsPipeline]
          ++ recording
          ++ [AppEvent.EndRendering,
              AppEvent.PipelineBarrier ResourceState.RENDER_TARGET
                ResourceState.PRESENT,
              AppEvent.CmdEnd, AppEvent.QueueCommandBuffer,
              AppEvent.EndFrame] ∧
        (∀ e ∈ recording, isDrawRecordingEvent e = true) ∧
        (frameEvents mds).countP isUpdateView = 1 ∧
        (frameEvents mds).countP isBeginFrame = 1 ∧
        (frameEvents mds).countP isCmdBegin = 1 ∧
        (frameEvents mds).countP isCmdEnd = 1 ∧
        (frameEvents mds).countP isQueueCommandBuffer = 1 ∧
        (frameEvents mds).countP isEndFrame = 1) ∧
    (∀ frames : List (List MeshDraw),
      mainEvents frames =
        AppEvent.UpdateView :: AppEvent.UpdateProjection ::
          (frames.map frameEvents).flatten) := by
  constructor
  · intro mds
    refine ⟨(mds.map meshDrawEvents).flatten, ?_,
      fun e he => mem_meshDraw_flatten_draw mds e he, ?_, ?_, ?_, ?_, ?_, ?_⟩
    · simp [frameEvents, renderEvents]
    · have hz := countP_flatten_draw_zero mds isUpdateView
        (fun e h => (draw_event_recognizers e h).2.2.2.2.2.2.2)
      unfold frameEvents renderEvents
      rw [List.countP_cons, List.countP_append, List.countP_append, hz]
      decide
    · have hz := countP_flatten_draw_zero mds isBeginFrame
        (fun e h => (draw_event_recognizers e h).2.2.1)
      unfold frameEvents renderEvents
      rw [List.countP_cons, List.countP_append, List.countP_append, hz]
      decide
    · have hz := countP_flatten_draw_zero mds isCmdBegin
        (fun e h => (draw_event_recognizers e h).2.2.2.1)
      unfold frameEvents renderEvents
      rw [List.countP_cons, List.countP_append, List.countP_append, hz]
      decide
    · have hz := countP_flatten_draw_zero mds isCmdEnd
        (fun e h => (draw_event_recognizers e h).2.2.2.2.1)
      unfold frameEvents renderEvents
      rw [List.countP_cons, List.countP_append, List.countP_append, hz]
      decide
    · have hz := countP_flatten_draw_zero mds isQueueCommandBuffer
        (fun e h => (draw_event_recognizers e h).2.2.2.2.2.1)
      unfold frameEvents renderEvents
      rw [List.countP_cons, List.countP_append, List.countP_append, hz]
      decide
    · have hz := countP_flatten_draw_zero mds isEndFrame
        (fun e h => (draw_event_recognizers e h).2.2.2.2.2.2.1)
      unfold frameEvents renderEvents
      rw [List.countP_cons, List.countP_append, List.countP_append, hz]
      decide
  · intro frames
    rfl

end Rikka
